import Mathlib

/-!
Verification of the Kirby Air Ride Archipelago client
(`worlds/kirby_air_ride/DolphinInterface.py` and
`worlds/kirby_air_ride/KARClient.py`).

The external `dolphin_memory_engine` library is modelled by an explicit
state `DME`: a hooked flag, a byte-addressed memory view, a float view
(float cells modelled with exact rationals `ℚ`; IEEE rounding is outside
this development's scope), and a pointer map for `follow_pointers`.
Operations of the library that can raise (`read_byte` etc. when Dolphin is
not hooked) are `Except`-valued; the repository's two layers are embedded
on top of that:

* namespace `DI` — the methods of the `DolphinInterface` class, which
  catch every library exception and return documented defaults;
* namespace `KC` — the module-level helper functions of `KARClient.py`,
  which do not catch, so their embeddings stay `Except`-valued.
-/

namespace KAR

/-! ### Memory address constants (from the source address tables) -/

def PLAYER_1_STAT_BOOST_PATCH_AMOUNT : Nat := 0x81578630
def PLAYER_1_STAT_TOP_SPEED_PATCH_AMOUNT : Nat := 0x81578634
def PLAYER_1_STAT_TURN_PATCH_AMOUNT : Nat := 0x81578638
def PLAYER_1_STAT_CHARGE_PATCH_AMOUNT : Nat := 0x8157863C
def PLAYER_1_STAT_GLIDE_PATCH_AMOUNT : Nat := 0x81578640
def PLAYER_1_STAT_WEIGHT_PATCH_AMOUNT : Nat := 0x8157862C
def PLAYER_1_STAT_OFFENSE_PATCH_AMOUNT : Nat := 0x81578644
def PLAYER_1_STAT_DEFENSE_PATCH_AMOUNT : Nat := 0x81578648
def PLAYER_1_STAT_HP_PATCH_AMOUNT : Nat := 0x8157864C

def PLAYER_1_CURRENT_MACHINE_HP_ADDRESS : Nat := 0x8055AA30
def PLAYER_1_CURRENT_HP_ADDRESS : Nat := 0x8055AA24
def PLAYER_1_CURRENT_MAX_HP_ADDRESS : Nat := 0x8055AA28

def MENU_STAGE_ID_ADDR : Nat := 0x80535A0C
def CURR_STAGE_ID_ADDR : Nat := 0x81333A64

def CITY_TRIAL_MENU_SELECTION : Nat := 0x0200
def CITY_TRIAL_STAGE_ID : Nat := 0x0009

def CONNECTION_CONNECTED_STATUS : String := "Dolphin connected successfully."
def CONNECTION_INITIAL_STATUS : String := "Dolphin connection has not been initiated."

/-! ### Model of the external dolphin_memory_engine state -/

/-- State of the external Dolphin process as seen through
`dolphin_memory_engine`: whether the adapter is hooked, the byte view and
float view of memory, and the result of `follow_pointers(a, [0])`
(`none` models the library raising `RuntimeError` on an unresolvable
pointer). -/
@[ext]
structure DME where
  hooked : Bool
  bytes : Nat → Nat
  floats : Nat → ℚ
  ptr : Nat → Option Nat

/-- `dolphin_memory_engine.read_byte`: raises when not hooked. -/
def dmeReadByte (d : DME) (a : Nat) : Except Unit Nat :=
  if d.hooked then Except.ok (d.bytes a % 256) else Except.error ()

/-- `dolphin_memory_engine.read_bytes`: raises when not hooked. -/
def dmeReadBytes (d : DME) (a n : Nat) : Except Unit (List Nat) :=
  if d.hooked then Except.ok ((List.range n).map (fun i => d.bytes (a + i) % 256))
  else Except.error ()

/-- `dolphin_memory_engine.read_float`: raises when not hooked. -/
def dmeReadFloat (d : DME) (a : Nat) : Except Unit ℚ :=
  if d.hooked then Except.ok (d.floats a) else Except.error ()

/-- `dolphin_memory_engine.write_float`: raises when not hooked. -/
def dmeWriteFloat (d : DME) (a : Nat) (v : ℚ) : Except Unit DME :=
  if d.hooked then
    Except.ok { d with floats := fun x => if x = a then v else d.floats x }
  else Except.error ()

/-- `dolphin_memory_engine.write_bytes` with a single byte payload:
raises when not hooked. -/
def dmeWriteByte (d : DME) (a v : Nat) : Except Unit DME :=
  if d.hooked then
    Except.ok { d with bytes := fun x => if x = a then v % 256 else d.bytes x }
  else Except.error ()

/-- `dolphin_memory_engine.follow_pointers(a, [0])`: raises when not
hooked or when the pointer cannot be resolved. -/
def dmeFollow (d : DME) (a : Nat) : Except Unit Nat :=
  if d.hooked then
    match d.ptr a with
    | some p => Except.ok p
    | none => Except.error ()
  else Except.error ()

/-- `int.from_bytes(bs, byteorder="big")`. -/
def natFromBytesBE (bs : List Nat) : Nat :=
  bs.foldl (fun acc b => acc * 256 + b) 0

/-! ### DolphinInterface adapter methods (catch-and-default layer) -/

namespace DI

/-- `DolphinInterface.read_byte`: catches and returns `0`. -/
def read_byte (d : DME) (a : Nat) : Nat :=
  match dmeReadByte d a with
  | Except.ok v => v
  | Except.error _ => 0

/-- `DolphinInterface.read_bytes`: catches and returns the empty byte
sequence. -/
def read_bytes (d : DME) (a n : Nat) : List Nat :=
  match dmeReadBytes d a n with
  | Except.ok v => v
  | Except.error _ => []

/-- `DolphinInterface.read_short`: reads 2 bytes big-endian, catches and
returns `0`. -/
def read_short (d : DME) (a : Nat) : Nat :=
  match dmeReadBytes d a 2 with
  | Except.ok bs => natFromBytesBE bs
  | Except.error _ => 0

/-- `DolphinInterface.read_float`: catches and returns `0.0`. -/
def read_float (d : DME) (a : Nat) : ℚ :=
  match dmeReadFloat d a with
  | Except.ok v => v
  | Except.error _ => 0

/-- `DolphinInterface.write_float`: catches, returning the success flag. -/
def write_float (d : DME) (a : Nat) (v : ℚ) : DME × Bool :=
  match dmeWriteFloat d a v with
  | Except.ok d' => (d', true)
  | Except.error _ => (d, false)

/-- `DolphinInterface.write_pointer_float`: one level of pointer
indirection plus a byte offset, then a float write; catches. -/
def write_pointer_float (d : DME) (base off : Nat) (v : ℚ) : DME × Bool :=
  match dmeFollow d base with
  | Except.ok p =>
    match dmeWriteFloat d (p + off) v with
    | Except.ok d' => (d', true)
    | Except.error _ => (d, false)
  | Except.error _ => (d, false)

/-- `DolphinInterface.is_in_city_trial`: menu selection and current stage
must both match their sentinels. -/
def is_in_city_trial (d : DME) : Bool :=
  (read_short d MENU_STAGE_ID_ADDR == CITY_TRIAL_MENU_SELECTION) &&
    (read_short d (CURR_STAGE_ID_ADDR + 2) == CITY_TRIAL_STAGE_ID)

/-- `DolphinInterface.transition_wait` (set to 6 in `__init__`). -/
def transition_wait : ℚ := 6

/-- `DolphinInterface.transition_waited`:
`time.time() >= self.transitioned_time + self.transition_wait`. -/
def transition_waited (now transitioned_time : ℚ) : Bool :=
  decide (transitioned_time + transition_wait ≤ now)

end DI

/-! ### KARClient module-level helpers (no exception handling) -/

namespace KC

/-- `KARClient.read_byte` (module level): no try/except, the library
exception propagates. -/
def read_byte (d : DME) (a : Nat) : Except Unit Nat :=
  dmeReadByte d a

/-- `KARClient.read_short` (module level): no try/except. -/
def read_short (d : DME) (a : Nat) : Except Unit Nat := do
  let bs ← dmeReadBytes d a 2
  pure (natFromBytesBE bs)

/-- `KARClient.read_float` (module level): no try/except. -/
def read_float (d : DME) (a : Nat) : Except Unit ℚ :=
  dmeReadFloat d a

/-- `KARClient.write_float` (module level): no try/except. -/
def write_float (d : DME) (a : Nat) (v : ℚ) : Except Unit DME :=
  dmeWriteFloat d a v

/-- `KARClient.write_pointer` (module level): catches only the
`RuntimeError` of `follow_pointers` (returning `None`, i.e. no write);
on success writes a single byte `value.to_bytes(1)` at the resolved
address plus offset. The returned flag records whether a write happened. -/
def write_pointer (d : DME) (base off v : Nat) : DME × Bool :=
  match dmeFollow d base with
  | Except.error _ => (d, false)
  | Except.ok p =>
    match dmeWriteByte d (p + off) v with
    | Except.ok d' => (d', true)
    | Except.error _ => (d, false)

/-- `KARContext.check_ingame_city_trial`: two raw short reads compared to
the sentinels; raises if a read raises. -/
def check_ingame_city_trial (d : DME) : Except Unit Bool := do
  let m ← read_short d MENU_STAGE_ID_ADDR
  let s ← read_short d (CURR_STAGE_ID_ADDR + 2)
  pure ((m == 0x0200) && (s == 0x0009))

end KC

/-- Pure value of a 2-byte big-endian short read at `a`, used to state
what the reads return on the hooked path. -/
def readShortPure (d : DME) (a : Nat) : Nat :=
  (d.bytes a % 256) * 256 + d.bytes (a + 1) % 256

/-- Pure value of the City-Trial check on the hooked path. -/
def cityTrialPure (d : DME) : Bool :=
  (readShortPure d MENU_STAGE_ID_ADDR == 0x0200) &&
    (readShortPure d (CURR_STAGE_ID_ADDR + 2) == 0x0009)

/-! ### Transition detection -/

/-- One tick of `DolphinInterface.check_transition`: given the current
`is_in_city_trial()` value and the stored `transitioned` flag, produce
the returned `trigger` and the updated flag.  (The source calls
`is_in_city_trial()` once in each arm of the `if`/`elif`; one tick is
modelled with a single per-tick value of that predicate.) -/
def checkTransitionStep (inCity s : Bool) : Bool × Bool :=
  if inCity && !s then (true, true)
  else if !inCity && s then (false, false)
  else (false, s)

/-- `DolphinInterface.check_transition` iterated over a sequence of
per-tick `is_in_city_trial()` values, starting from stored flag `s`;
returns the list of returned `trigger` values. -/
def checkTransitionRun (s : Bool) : List Bool → List Bool
  | [] => []
  | m :: ms =>
    (checkTransitionStep m s).1 :: checkTransitionRun (checkTransitionStep m s).2 ms

/-- One tick of `KARContext.check_transitioned`: same flag update as
`check_transition`, but the method returns `self.transitioned` (the
updated flag), not a one-shot trigger.  (Its `give_items` side effect on
the "into City Trial" edge is not part of the returned value.) -/
def checkTransitionedStep (inCity s : Bool) : Bool × Bool :=
  if inCity && !s then (true, true)
  else if !inCity && s then (false, false)
  else (s, s)

/-- `KARContext.check_transitioned` iterated over per-tick
`check_ingame_city_trial()` values. -/
def checkTransitionedRun (s : Bool) : List Bool → List Bool
  | [] => []
  | m :: ms =>
    (checkTransitionedStep m s).1 :: checkTransitionedRun (checkTransitionedStep m s).2 ms

/-- The spec's words for `detectTransition()`: true exactly on a tick
where the in-target-mode predicate was false on the previous tick
(`prev`, initially false) and true on the current tick. -/
def specEdges (prev : Bool) : List Bool → List Bool
  | [] => []
  | m :: ms => (m && !prev) :: specEdges m ms

/-! ### Item names, patch types and patch application -/

/-- Does the character list start with the pattern list? -/
def listStarts : List Char → List Char → Bool
  | _, [] => true
  | [], _ :: _ => false
  | c :: cs, p :: ps => (c == p) && listStarts cs ps

/-- Does the pattern list occur as a contiguous run of the second list? -/
def listOccurs (pat : List Char) : List Char → Bool
  | [] => pat.isEmpty
  | c :: cs => listStarts (c :: cs) pat || listOccurs pat cs

/-- Python's substring test `pat in s`. -/
def strOccurs (pat s : String) : Bool :=
  listOccurs pat.data s.data

/-- The `PatchType` enum of `DolphinInterface.py`. -/
inductive PatchType where
  | TURN | BOOST | CHARGE | DEFENSE | GLIDE | HP | WEIGHT | OFFENSE
  | TOP_SPEED | ALL
deriving DecidableEq

/-- The enum member values, in declaration order (the order Python's
`for patch_type in PatchType` iterates). -/
def PatchType.value : PatchType → String
  | .TURN => "Turn"
  | .BOOST => "Boost"
  | .CHARGE => "Charge"
  | .DEFENSE => "Defense"
  | .GLIDE => "Glide"
  | .HP => "HP"
  | .WEIGHT => "Weight"
  | .OFFENSE => "Offense"
  | .TOP_SPEED => "Top Speed"
  | .ALL => "All"

/-- Declaration order of the `PatchType` members. -/
def patchTypeOrder : List PatchType :=
  [.TURN, .BOOST, .CHARGE, .DEFENSE, .GLIDE, .HP, .WEIGHT, .OFFENSE,
   .TOP_SPEED, .ALL]

/-- `get_patch_type_from_item_name`: first enum member whose value is a
substring of the item name, else `None`. -/
def get_patch_type_from_item_name (item_name : String) : Option PatchType :=
  patchTypeOrder.find? (fun p => strOccurs p.value item_name)

/-- `PATCH_ADDRESS_MAP` in its insertion (iteration) order. -/
def PATCH_ADDRESS_MAP : List (PatchType × Nat) :=
  [(.TURN, PLAYER_1_STAT_TURN_PATCH_AMOUNT),
   (.BOOST, PLAYER_1_STAT_BOOST_PATCH_AMOUNT),
   (.CHARGE, PLAYER_1_STAT_CHARGE_PATCH_AMOUNT),
   (.DEFENSE, PLAYER_1_STAT_DEFENSE_PATCH_AMOUNT),
   (.GLIDE, PLAYER_1_STAT_GLIDE_PATCH_AMOUNT),
   (.HP, PLAYER_1_STAT_HP_PATCH_AMOUNT),
   (.WEIGHT, PLAYER_1_STAT_WEIGHT_PATCH_AMOUNT),
   (.OFFENSE, PLAYER_1_STAT_OFFENSE_PATCH_AMOUNT),
   (.TOP_SPEED, PLAYER_1_STAT_TOP_SPEED_PATCH_AMOUNT)]

/-- The nine patch-stat addresses (values of `PATCH_ADDRESS_MAP`). -/
def ninePatchAddresses : List Nat :=
  PATCH_ADDRESS_MAP.map Prod.snd

/-- Read-increment-write of one float stat through the
`DolphinInterface` read/write methods (the body of each branch of
`DolphinInterface.increment_player_patch`). -/
def DI.bumpStat (d : DME) (a : Nat) (delta : ℚ) : DME :=
  (DI.write_float d a (DI.read_float d a + delta)).1

/-- `DolphinInterface.increment_player_patch`: resolve the patch type
from the item name; unknown names are a logged no-op; `ALL` folds the
read-increment-write over every address of `PATCH_ADDRESS_MAP`; a
specific type updates its mapped address. -/
def DI.increment_player_patch (d : DME) (item_name : String) (delta : ℚ) : DME :=
  match get_patch_type_from_item_name item_name with
  | none => d
  | some pt =>
    if pt = PatchType.ALL then
      ninePatchAddresses.foldl (fun d a => DI.bumpStat d a delta) d
    else
      match PATCH_ADDRESS_MAP.find? (fun p => p.1 == pt) with
      | some p => DI.bumpStat d p.2 delta
      | none => d

/-- Read-increment-write of one float stat through the raw module-level
helpers of `KARClient.py` (raises when a read/write raises). -/
def KC.bumpStat (d : DME) (a : Nat) (delta : ℚ) : Except Unit DME := do
  let current_amount ← KC.read_float d a
  KC.write_float d a (current_amount + delta)

/-- `KARClient.increment_player_patch` (module level): `elif` chain of
substring tests in source order; the `"All"` branch performs the nine
read-increment-writes in its own literal order (top speed, offense,
weight, HP, glide, defense, charge, boost, turn); a name matching no
branch falls through unchanged. -/
def KC.increment_player_patch (d : DME) (item_name : String) (delta : ℚ) :
    Except Unit DME :=
  if strOccurs "Turn" item_name then KC.bumpStat d PLAYER_1_STAT_TURN_PATCH_AMOUNT delta
  else if strOccurs "Boost" item_name then KC.bumpStat d PLAYER_1_STAT_BOOST_PATCH_AMOUNT delta
  else if strOccurs "Charge" item_name then KC.bumpStat d PLAYER_1_STAT_CHARGE_PATCH_AMOUNT delta
  else if strOccurs "Defense" item_name then KC.bumpStat d PLAYER_1_STAT_DEFENSE_PATCH_AMOUNT delta
  else if strOccurs "Glide" item_name then KC.bumpStat d PLAYER_1_STAT_GLIDE_PATCH_AMOUNT delta
  else if strOccurs "HP" item_name then KC.bumpStat d PLAYER_1_STAT_HP_PATCH_AMOUNT delta
  else if strOccurs "Weight" item_name then KC.bumpStat d PLAYER_1_STAT_WEIGHT_PATCH_AMOUNT delta
  else if strOccurs "Offense" item_name then KC.bumpStat d PLAYER_1_STAT_OFFENSE_PATCH_AMOUNT delta
  else if strOccurs "Top Speed" item_name then KC.bumpStat d PLAYER_1_STAT_TOP_SPEED_PATCH_AMOUNT delta
  else if strOccurs "All" item_name then do
    let d ← KC.bumpStat d PLAYER_1_STAT_TOP_SPEED_PATCH_AMOUNT delta
    let d ← KC.bumpStat d PLAYER_1_STAT_OFFENSE_PATCH_AMOUNT delta
    let d ← KC.bumpStat d PLAYER_1_STAT_WEIGHT_PATCH_AMOUNT delta
    let d ← KC.bumpStat d PLAYER_1_STAT_HP_PATCH_AMOUNT delta
    let d ← KC.bumpStat d PLAYER_1_STAT_GLIDE_PATCH_AMOUNT delta
    let d ← KC.bumpStat d PLAYER_1_STAT_DEFENSE_PATCH_AMOUNT delta
    let d ← KC.bumpStat d PLAYER_1_STAT_CHARGE_PATCH_AMOUNT delta
    let d ← KC.bumpStat d PLAYER_1_STAT_BOOST_PATCH_AMOUNT delta
    KC.bumpStat d PLAYER_1_STAT_TURN_PATCH_AMOUNT delta
  else pure d

/-- The effect of one read-increment-write on the float view alone. -/
def bumpF (f : Nat → ℚ) (a : Nat) (delta : ℚ) : Nat → ℚ :=
  fun x => if x = a then f a + delta else f x

/-- The literal order in which the `"All"` branch of
`KARClient.increment_player_patch` touches the nine stat addresses. -/
def KCallOrder : List Nat :=
  [PLAYER_1_STAT_TOP_SPEED_PATCH_AMOUNT, PLAYER_1_STAT_OFFENSE_PATCH_AMOUNT,
   PLAYER_1_STAT_WEIGHT_PATCH_AMOUNT, PLAYER_1_STAT_HP_PATCH_AMOUNT,
   PLAYER_1_STAT_GLIDE_PATCH_AMOUNT, PLAYER_1_STAT_DEFENSE_PATCH_AMOUNT,
   PLAYER_1_STAT_CHARGE_PATCH_AMOUNT, PLAYER_1_STAT_BOOST_PATCH_AMOUNT,
   PLAYER_1_STAT_TURN_PATCH_AMOUNT]

/-! ### Effect items -/

/-- A write operation issued against game memory, as an observable
event: a direct float write, a pointer-relative float write (one level
of indirection plus byte offset), or a pointer-relative single-byte
write. -/
inductive WriteEv where
  | floatW (addr : Nat) (v : ℚ)
  | ptrFloatW (base off : Nat) (v : ℚ)
  | ptrByteW (base off v : Nat)
deriving DecidableEq

/-- `DolphinInterface.apply_effect_item`: `"1 HP"` issues one
pointer-relative float write of 1 at base
`PLAYER_1_CURRENT_MACHINE_HP_ADDRESS`, offset `0xA78`; `"Full Heal"`
reads the current max HP and issues one pointer-relative float write of
that value; any other name does nothing.  The result pairs the updated
state with the list of write operations issued. -/
def DI.apply_effect_item (d : DME) (item_name : String) : DME × List WriteEv :=
  if item_name = "1 HP" then
    ((DI.write_pointer_float d PLAYER_1_CURRENT_MACHINE_HP_ADDRESS 0xA78 1).1,
     [.ptrFloatW PLAYER_1_CURRENT_MACHINE_HP_ADDRESS 0xA78 1])
  else if item_name = "Full Heal" then
    let current_max_hp := DI.read_float d PLAYER_1_CURRENT_MAX_HP_ADDRESS
    ((DI.write_pointer_float d PLAYER_1_CURRENT_MACHINE_HP_ADDRESS 0xA78 current_max_hp).1,
     [.ptrFloatW PLAYER_1_CURRENT_MACHINE_HP_ADDRESS 0xA78 current_max_hp])
  else (d, [])

/-- `KARClient.apply_effect_item` (module level): `"1 HP"` issues one
direct float write of 1 at `PLAYER_1_CURRENT_MACHINE_HP_ADDRESS` itself
(no pointer indirection); every other name, including `"Full Heal"`,
does nothing. -/
def KC.apply_effect_item (d : DME) (item_name : String) :
    Except Unit (DME × List WriteEv) :=
  if item_name = "1 HP" then do
    let d' ← KC.write_float d PLAYER_1_CURRENT_MACHINE_HP_ADDRESS 1
    pure (d', [WriteEv.floatW PLAYER_1_CURRENT_MACHINE_HP_ADDRESS 1])
  else pure (d, [])

/-! ### The item table and give_item -/

/-- `KARItemData` of `Items.py` (the `classification` enum is kept as a
plain string tag). -/
structure KARItemData where
  type : String
  classification : String
  code : Option Nat
  quantity : Nat
  item_id : Option Nat

/-- The uncommented entries of `ITEM_TABLE` in `Items.py`.  The runtime
table additionally appends one `"Checkbox Reward"` entry per reward of
`CITY_TRIAL_LOCATION_TABLE`; `Locations.py` is not part of the sources,
so `give_item` below is parameterised over the table and instantiated
with this base table where a concrete table is needed. -/
def ITEM_TABLE_BASE : List (String × KARItemData) :=
  [("Boost Up", ⟨"Patch", "useful", some 30, 10, some 0x03⟩),
   ("Boost Down", ⟨"Patch", "trap", some 31, 10, some 0x04⟩),
   ("Top Speed Up", ⟨"Patch", "useful", some 32, 10, some 0x05⟩),
   ("Top Speed Down", ⟨"Patch", "trap", some 33, 10, some 0x06⟩),
   ("Offense Up", ⟨"Patch", "useful", some 34, 10, some 0x07⟩),
   ("Offense Down", ⟨"Patch", "trap", some 35, 10, some 0x08⟩),
   ("Defense Up", ⟨"Patch", "useful", some 36, 10, some 0x09⟩),
   ("Defense Down", ⟨"Patch", "trap", some 37, 10, some 0x0A⟩),
   ("Turn Up", ⟨"Patch", "useful", some 38, 10, some 0x0B⟩),
   ("Turn Down", ⟨"Patch", "trap", some 39, 10, some 0x0C⟩),
   ("Glide Up", ⟨"Patch", "useful", some 40, 10, some 0x0D⟩),
   ("Glide Down", ⟨"Patch", "trap", some 41, 10, some 0x0E⟩),
   ("Charge Up", ⟨"Patch", "useful", some 42, 10, some 0x0F⟩),
   ("Charge Down", ⟨"Patch", "trap", some 43, 10, some 0x10⟩),
   ("Weight Up", ⟨"Patch", "useful", some 44, 10, some 0x11⟩),
   ("Weight Down", ⟨"Patch", "trap", some 45, 10, some 0x12⟩),
   ("HP Up", ⟨"Patch", "useful", some 46, 10, some 0x13⟩),
   ("HP Down", ⟨"Patch", "trap", some 47, 10, none⟩),
   ("Boost Up: Permanent +1", ⟨"Patch", "progression", some 48, 5, none⟩),
   ("Top Speed Up: Permanent +1", ⟨"Patch", "progression", some 49, 5, none⟩),
   ("Offense Up: Permanent +1", ⟨"Patch", "progression", some 50, 5, none⟩),
   ("Defense Up: Permanent +1", ⟨"Patch", "progression", some 51, 5, none⟩),
   ("Turn Up: Permanent +1", ⟨"Patch", "progression", some 52, 5, none⟩),
   ("Glide Up: Permanent +1", ⟨"Patch", "progression", some 53, 5, none⟩),
   ("Charge Up: Permanent +1", ⟨"Patch", "progression", some 54, 5, none⟩),
   ("Weight Up: Permanent +1", ⟨"Patch", "progression", some 55, 5, none⟩),
   ("HP Up: Permanent +1", ⟨"Patch", "progression", some 56, 5, none⟩),
   ("All Up", ⟨"Patch", "useful", some 57, 5, some 0x14⟩)]

/-- Python dict subscript `table[item_name]`: `KeyError` (modelled as
`Except.error`) when the key is absent. -/
def lookupItem (table : List (String × KARItemData)) (item_name : String) :
    Except Unit KARItemData :=
  match table.find? (fun p => p.1 == item_name) with
  | some p => Except.ok p.2
  | none => Except.error ()

/-- `KARContext.give_item`: returns `False` (item stays pending, the
caller retries) unless `check_ingame_city_trial()` holds OR fewer than 6
seconds have passed since `transitioned_time`; otherwise looks the item
up (`KeyError` propagates for unknown names), applies the patch /
effect branches, and returns `True`.  The result pairs the returned
boolean with the updated state and the write events issued. -/
def give_item (table : List (String × KARItemData)) (d : DME)
    (now transitioned_time : ℚ) (item_name : String) :
    Except Unit (Bool × DME × List WriteEv) := do
  let inCity ← KC.check_ingame_city_trial d
  if !(inCity || decide (now < transitioned_time + 6)) then
    pure (false, d, [])
  else do
    let item_data ← lookupItem table item_name
    let d₁ ←
      (if item_data.type == "Patch" && strOccurs "Up" item_name then
        KC.increment_player_patch d item_name 1
      else pure d)
    let d₂ ←
      (if item_data.type == "Patch" && strOccurs "Down" item_name then
        KC.increment_player_patch d₁ item_name (-1)
      else pure d₁)
    -- "Checkbox Reward" and "Progressive Stadium" branches are `pass`
    if strOccurs "Effect" item_data.type then do
      let p ← KC.apply_effect_item d₂ item_name
      pure (true, p.1, p.2)
    else pure (true, d₂, [])

/-! ### Checklist locations -/

/-- Modelled from the spec: the `KARLocationType` enum of the absent
`Locations.py`; only the `CHECKLISTBOX` member is examined by
`send_check_locations`, every other member is collapsed into `OTHER`. -/
inductive KARLocationType where
  | CHECKLISTBOX | OTHER
deriving DecidableEq

/-- Modelled from the spec: the fields of a `CITY_TRIAL_LOCATION_TABLE`
entry (absent `Locations.py`) that `send_check_locations` reads: the
location type, the optional memory address of the checklist byte, and
the optional server code. -/
structure KARLocationData where
  type : KARLocationType
  mem_address : Option Nat
  code : Option Nat

/-- The `checked` computation of one `send_check_locations` iteration: a
checklist-box location with an address is checked when its byte reads a
value outside `{0x00, 0x01, 0x10}` (the raw `read_byte` raises when not
hooked); every other location stays at the initial `checked = False`. -/
def locChecked (d : DME) (loc : KARLocationData) : Except Unit Bool :=
  if loc.type = KARLocationType.CHECKLISTBOX then
    match loc.mem_address with
    | some a => do
      let b ← KC.read_byte d a
      pure (!(b == 0x00 || b == 0x01 || b == 0x10))
    | none => pure false
  else pure false

/-- The per-location body of `KARContext.send_check_locations`: when
checked and carrying a code, that code is added to the accumulated
`locations_checked` set; the set is never shrunk. -/
def checkLocationStep (d : DME) (acc : Finset Nat) (loc : KARLocationData) :
    Except Unit (Finset Nat) := do
  let checked ← locChecked d loc
  if checked then
    match loc.code with
    | some code => pure (insert code acc)
    | none => pure acc
  else pure acc

/-- One pass of `KARContext.send_check_locations` over the location
table (its victory-condition checks and server reporting do not touch
the accumulated set). -/
def sendCheckPass (d : DME) (table : List KARLocationData) (acc : Finset Nat) :
    Except Unit (Finset Nat) :=
  table.foldlM (checkLocationStep d) acc

/-- `send_check_locations` iterated over the memory states of a sequence
of connected ticks. -/
def sendCheckRun (table : List KARLocationData) (acc : Finset Nat) :
    List DME → Except Unit (Finset Nat)
  | [] => Except.ok acc
  | d :: ds => do
    let acc' ← sendCheckPass d table acc
    sendCheckRun table acc' ds

/-! ### DeathLink -/

/-- `KARContext.give_death`: writes only when the slot is set, the
adapter is hooked, the Dolphin status equals the connected status, and
the player is in City Trial; the guarded write is
`write_pointer(PLAYER_1_CURRENT_MACHINE_HP_ADDRESS, 0xA78, 0)` (a
single-byte write through one pointer indirection).  Short-circuit
evaluation keeps `check_ingame_city_trial` from raising: it is only
reached when hooked, where it returns `cityTrialPure`.  The result pairs
the updated state with the write events issued. -/
def give_death (slot : Option Nat) (dolphin_status : String) (d : DME) :
    DME × List WriteEv :=
  if slot.isSome && d.hooked && (dolphin_status == CONNECTION_CONNECTED_STATUS)
      && cityTrialPure d then
    let r := KC.write_pointer d PLAYER_1_CURRENT_MACHINE_HP_ADDRESS 0xA78 0
    (r.1, if r.2 then [WriteEv.ptrByteW PLAYER_1_CURRENT_MACHINE_HP_ADDRESS 0xA78 0] else [])
  else (d, [])

/-- `KARContext.on_deathlink`: the superclass call only records
bookkeeping (e.g. `last_death_link`); the game-memory effect is exactly
`give_death`. -/
def on_deathlink (slot : Option Nat) (dolphin_status : String) (d : DME) :
    DME × List WriteEv :=
  give_death slot dolphin_status d

/-! ### Concrete states for witnesses and counterexamples -/

/-- A detached adapter state (all memory views zero). -/
def dmeUnhooked : DME :=
  ⟨false, fun _ => 0, fun _ => 0, fun _ => none⟩

/-- A hooked adapter state over all-zero memory with no resolvable
pointers. -/
def dmeHookedZero : DME :=
  ⟨true, fun _ => 0, fun _ => 0, fun _ => none⟩

/-- A hooked state whose byte at address 100 encodes a satisfied
checklist box (`0x20`, outside the locked set). -/
def dmeBoxSatisfied : DME :=
  ⟨true, fun a => if a = 100 then 0x20 else 0, fun _ => 0, fun _ => none⟩

/-- A one-entry location table: a checklist box at byte address 100
reporting server code 42. -/
def locTableOne : List KARLocationData :=
  [⟨KARLocationType.CHECKLISTBOX, some 100, some 42⟩]

/-! ### Helper lemmas -/

theorem checkTransitionStep_eq (m s : Bool) :
    checkTransitionStep m s = (m && !s, m) := by
  cases m <;> cases s <;> rfl

theorem checkTransitionedStep_eq (m s : Bool) :
    checkTransitionedStep m s = (m, m) := by
  cases m <;> cases s <;> rfl

theorem dmeReadBytes_two (d : DME) (a : Nat) (h : d.hooked = true) :
    dmeReadBytes d a 2 = Except.ok [d.bytes a % 256, d.bytes (a + 1) % 256] := by
  simp [dmeReadBytes, h, List.range_succ]

theorem KC_read_short_hooked (d : DME) (a : Nat) (h : d.hooked = true) :
    KC.read_short d a = Except.ok (readShortPure d a) := by
  simp [KC.read_short, dmeReadBytes_two d a h, readShortPure, natFromBytesBE]

theorem KC_check_city_hooked (d : DME) (h : d.hooked = true) :
    KC.check_ingame_city_trial d = Except.ok (cityTrialPure d) := by
  simp only [KC.check_ingame_city_trial, KC_read_short_hooked _ _ h, cityTrialPure]
  rfl

/-! ### C1 — typed reads on a detached adapter -/

/-- C1 (amended): every typed read method of the `DolphinInterface`
adapter, called while the adapter is detached, returns its documented
zero-value default (0 for byte and short, 0 for float, the empty byte
sequence for a byte run) instead of propagating the failure. -/
theorem C1_adapter_reads_default (d : DME) (a n : Nat) (h : d.hooked = false) :
    DI.read_byte d a = 0 ∧ DI.read_short d a = 0 ∧ DI.read_float d a = 0 ∧
      DI.read_bytes d a n = [] := by
  simp [DI.read_byte, DI.read_short, DI.read_float, DI.read_bytes,
    dmeReadByte, dmeReadBytes, dmeReadFloat, h]

/-- C1 witness: the amended theorem evaluated on a concrete detached
state. -/
theorem C1_witness :
    dmeUnhooked.hooked = false ∧
      (DI.read_byte dmeUnhooked 5 = 0 ∧ DI.read_short dmeUnhooked 5 = 0 ∧
        DI.read_float dmeUnhooked 5 = 0 ∧ DI.read_bytes dmeUnhooked 5 3 = []) :=
  ⟨rfl, C1_adapter_reads_default dmeUnhooked 5 3 rfl⟩

/-- C1 counterexample: the claim also covers the module-level typed read
helpers of `KARClient.py` (its cited lines 388–424); those have no
try/except, so on a detached adapter the library exception propagates to
the caller instead of a zero default being returned. -/
theorem C1_counterexample :
    KC.read_byte dmeUnhooked 0x80000000 = Except.error () ∧
      KC.read_short dmeUnhooked MENU_STAGE_ID_ADDR = Except.error () ∧
      KC.read_float dmeUnhooked PLAYER_1_CURRENT_HP_ADDRESS = Except.error () :=
  ⟨rfl, rfl, rfl⟩

/-! ### C3 — the transition edge detector -/

/-- C3 (amended): `DolphinInterface.check_transition`, run from stored
flag `s` over any sequence of per-tick in-City-Trial values, returns
true exactly on the false→true edges (the stored flag always equals the
previous tick's value, initially false), as the claim states; but
`KARContext.check_transitioned n` — also cited by the claim — returns
the updated persistent flag, which equals the current tick's
in-City-Trial value, so it is true on every in-mode tick rather than
only on the edge. -/
theorem C3_transition_detector :
    (∀ (s : Bool) (ms : List Bool), checkTransitionRun s ms = specEdges s ms) ∧
      (∀ (s : Bool) (ms : List Bool), checkTransitionedRun s ms = ms) := by
  constructor
  · intro s ms
    induction ms generalizing s with
    | nil => rfl
    | cons m ms ih =>
      simp [checkTransitionRun, specEdges, checkTransitionStep_eq, ih]
  · intro s ms
    induction ms generalizing s with
    | nil => rfl
    | cons m ms ih =>
      simp [checkTransitionedRun, checkTransitionedStep_eq, ih]

/-- C3 counterexample: on the repeated in-mode sequence true, true,
`KARContext.check_transitioned` returns true on the second tick as well,
while the claim demands false on every tick after the edge. -/
theorem C3_counterexample :
    checkTransitionedRun false [true, true] = [true, true] := by
  decide

/-! ### C9 — the debounce predicate -/

/-- C9: `DolphinInterface.transition_waited` is false on every call made
strictly less than 6 seconds after the recorded transition timestamp,
and true on every call made at or after 6 seconds past it. -/
theorem C9_debounce_boundary (now t : ℚ) :
    (now < t + 6 → DI.transition_waited now t = false) ∧
      (t + 6 ≤ now → DI.transition_waited now t = true) := by
  constructor
  · intro h
    simp only [DI.transition_waited, DI.transition_wait, decide_eq_false_iff_not]
    linarith
  · intro h
    simp only [DI.transition_waited, DI.transition_wait, decide_eq_true_eq]
    linarith

/-- C9 witness: both sides of the boundary at concrete times (5.9
seconds after a transition at time 0 the predicate is false, at exactly
6 seconds it is true). -/
theorem C9_witness :
    ((59 : ℚ) / 10 < 0 + 6 ∧ DI.transition_waited ((59 : ℚ) / 10) 0 = false) ∧
      ((0 : ℚ) + 6 ≤ 6 ∧ DI.transition_waited 6 0 = true) :=
  ⟨⟨by norm_num, (C9_debounce_boundary ((59 : ℚ) / 10) 0).1 (by norm_num)⟩,
   ⟨by norm_num, (C9_debounce_boundary 6 0).2 (by norm_num)⟩⟩

/-! ### Patch-stat lemmas -/

theorem DI_bumpStat_hooked (d : DME) (a : Nat) (delta : ℚ) (h : d.hooked = true) :
    DI.bumpStat d a delta = { d with floats := bumpF d.floats a delta } := by
  simp only [DI.bumpStat, DI.read_float, DI.write_float, dmeReadFloat,
    dmeWriteFloat, h, if_true]
  rfl

theorem DI_bumpStat_unhooked (d : DME) (a : Nat) (delta : ℚ)
    (h : d.hooked = false) : DI.bumpStat d a delta = d := by
  simp [DI.bumpStat, DI.read_float, DI.write_float, dmeReadFloat, dmeWriteFloat, h]

theorem KC_bumpStat_hooked (d : DME) (a : Nat) (delta : ℚ) (h : d.hooked = true) :
    KC.bumpStat d a delta =
      Except.ok { d with floats := bumpF d.floats a delta } := by
  simp only [KC.bumpStat, KC.read_float, KC.write_float, dmeReadFloat,
    dmeWriteFloat, h, if_true]
  rfl

theorem DI_bump_roundtrip (d : DME) (a : Nat) (delta : ℚ) :
    DI.bumpStat (DI.bumpStat d a delta) a (-delta) = d := by
  rcases hd : d.hooked with _ | _
  · rw [DI_bumpStat_unhooked d a delta hd, DI_bumpStat_unhooked d a (-delta) hd]
  · rw [DI_bumpStat_hooked d a delta hd,
      DI_bumpStat_hooked _ a (-delta) (by simpa using hd)]
    ext x
    · rfl
    · rfl
    · simp only [bumpF]
      by_cases hx : x = a <;> simp [hx]
    · rfl

theorem KC_bump_roundtrip (d : DME) (a : Nat) (delta : ℚ) (h : d.hooked = true) :
    (KC.bumpStat d a delta).bind (fun d₁ => KC.bumpStat d₁ a (-delta)) =
      Except.ok d := by
  rw [KC_bumpStat_hooked d a delta h]
  simp only [Except.bind]
  rw [KC_bumpStat_hooked _ a (-delta) (by simpa using h)]
  congr 1
  ext x
  · rfl
  · rfl
  · simp only [bumpF]
    by_cases hx : x = a <;> simp [hx]
  · rfl

theorem foldl_bumpF_not_mem (L : List Nat) (f : Nat → ℚ) (delta : ℚ) (x : Nat)
    (hx : x ∉ L) :
    L.foldl (fun g a => bumpF g a delta) f x = f x := by
  induction L generalizing f with
  | nil => rfl
  | cons a L ih =>
    simp only [List.foldl_cons]
    rw [ih _ (fun hm => hx (List.mem_cons_of_mem a hm))]
    simp only [bumpF]
    have hxa : x ≠ a := by
      intro hep
      subst hep
      exact hx (List.mem_cons_self x L)
    rw [if_neg hxa]

theorem foldl_bumpF_mem (L : List Nat) (f : Nat → ℚ) (delta : ℚ) (x : Nat)
    (hx : x ∈ L) (hnd : L.Nodup) :
    L.foldl (fun g a => bumpF g a delta) f x = f x + delta := by
  induction L generalizing f with
  | nil => cases hx
  | cons a L ih =>
    simp only [List.foldl_cons]
    rcases List.mem_cons.mp hx with hxa | hxL
    · subst hxa
      rw [foldl_bumpF_not_mem L _ delta x (List.Nodup.not_mem hnd)]
      simp [bumpF]
    · rw [ih _ hxL (List.Nodup.of_cons hnd)]
      simp only [bumpF]
      rw [if_neg]
      intro hxa
      subst hxa
      exact (List.Nodup.not_mem hnd) hxL

theorem foldl_DI_bump (L : List Nat) (d : DME) (delta : ℚ) (h : d.hooked = true) :
    L.foldl (fun d a => DI.bumpStat d a delta) d =
      { d with floats := L.foldl (fun g a => bumpF g a delta) d.floats } := by
  induction L generalizing d with
  | nil => rfl
  | cons a L ih =>
    simp only [List.foldl_cons]
    rw [DI_bumpStat_hooked d a delta h, ih _ (by simpa using h)]

/-! ### C6 — Boost Up then Boost Down round-trips -/

/-- C6: applying "Boost Up" (delta +1) then "Boost Down" (delta −1)
restores the whole stat state exactly — the Boost stat returns to its
initial value and every other patch stat is untouched.  This holds for
`DolphinInterface.increment_player_patch` on any adapter state (on a
detached one both applications are no-ops) and for the module-level
`KARClient.increment_player_patch` on a hooked state (on a detached one
it raises instead).  Float cells are modelled with exact rationals; IEEE
rounding of `current + delta` is outside this development's scope. -/
theorem C6_boost_round_trip :
    (∀ d : DME,
        DI.increment_player_patch (DI.increment_player_patch d "Boost Up" 1)
          "Boost Down" (-1) = d) ∧
      (∀ d : DME, d.hooked = true →
        (KC.increment_player_patch d "Boost Up" 1).bind
            (fun d₁ => KC.increment_player_patch d₁ "Boost Down" (-1)) =
          Except.ok d) := by
  constructor
  · intro d
    show DI.bumpStat (DI.bumpStat d PLAYER_1_STAT_BOOST_PATCH_AMOUNT 1)
        PLAYER_1_STAT_BOOST_PATCH_AMOUNT (-1) = d
    exact DI_bump_roundtrip d PLAYER_1_STAT_BOOST_PATCH_AMOUNT 1
  · intro d h
    show (KC.bumpStat d PLAYER_1_STAT_BOOST_PATCH_AMOUNT 1).bind
        (fun d₁ => KC.bumpStat d₁ PLAYER_1_STAT_BOOST_PATCH_AMOUNT (-1)) =
      Except.ok d
    exact KC_bump_roundtrip d PLAYER_1_STAT_BOOST_PATCH_AMOUNT 1 h

/-- C6 witness: the round trip evaluated on a concrete hooked state. -/
theorem C6_witness :
    dmeHookedZero.hooked = true ∧
      DI.increment_player_patch
          (DI.increment_player_patch dmeHookedZero "Boost Up" 1) "Boost Down" (-1) =
        dmeHookedZero ∧
      (KC.increment_player_patch dmeHookedZero "Boost Up" 1).bind
          (fun d₁ => KC.increment_player_patch d₁ "Boost Down" (-1)) =
        Except.ok dmeHookedZero :=
  ⟨rfl, C6_boost_round_trip.1 dmeHookedZero, C6_boost_round_trip.2 dmeHookedZero rfl⟩

theorem except_ok_bind {α β : Type} (x : α) (f : α → Except Unit β) :
    (Except.ok x).bind f = f x := rfl

theorem di_inc_allup (d : DME) (delta : ℚ) :
    DI.increment_player_patch d "All Up" delta =
      ninePatchAddresses.foldl (fun d a => DI.bumpStat d a delta) d := rfl

theorem kc_inc_allup_chain (d : DME) (delta : ℚ) :
    KC.increment_player_patch d "All Up" delta =
      (KC.bumpStat d PLAYER_1_STAT_TOP_SPEED_PATCH_AMOUNT delta).bind (fun d =>
      (KC.bumpStat d PLAYER_1_STAT_OFFENSE_PATCH_AMOUNT delta).bind (fun d =>
      (KC.bumpStat d PLAYER_1_STAT_WEIGHT_PATCH_AMOUNT delta).bind (fun d =>
      (KC.bumpStat d PLAYER_1_STAT_HP_PATCH_AMOUNT delta).bind (fun d =>
      (KC.bumpStat d PLAYER_1_STAT_GLIDE_PATCH_AMOUNT delta).bind (fun d =>
      (KC.bumpStat d PLAYER_1_STAT_DEFENSE_PATCH_AMOUNT delta).bind (fun d =>
      (KC.bumpStat d PLAYER_1_STAT_CHARGE_PATCH_AMOUNT delta).bind (fun d =>
      (KC.bumpStat d PLAYER_1_STAT_BOOST_PATCH_AMOUNT delta).bind (fun d =>
      KC.bumpStat d PLAYER_1_STAT_TURN_PATCH_AMOUNT delta)))))))) := rfl

theorem kc_inc_allup_hooked (d : DME) (delta : ℚ) (h : d.hooked = true) :
    KC.increment_player_patch d "All Up" delta =
      Except.ok
        { d with floats := KCallOrder.foldl (fun g a => bumpF g a delta) d.floats } := by
  simp only [kc_inc_allup_chain]
  simp only [KC_bumpStat_hooked, h, except_ok_bind, KCallOrder, List.foldl_cons,
    List.foldl_nil]

/-! ### C7 — "All Up" raises all nine stats by one -/

/-- C7: applying "All Up" once on a hooked state performs, for each of
the nine patch stats, a read of the current float followed by a write of
that value plus 1, so every one of the nine stat addresses ends exactly
1 higher.  This holds both for `DolphinInterface.increment_player_patch`
(which walks `PATCH_ADDRESS_MAP` in turn/boost/…/top-speed order) and
for the module-level `KARClient.increment_player_patch` (which writes
the same nine addresses in the reverse, top-speed-first order), so the
result is independent of the processing order.  Float cells are modelled
with exact rationals. -/
theorem C7_all_up (d : DME) (h : d.hooked = true) :
    (∀ a ∈ ninePatchAddresses,
        (DI.increment_player_patch d "All Up" 1).floats a = d.floats a + 1) ∧
      (∀ a ∈ ninePatchAddresses,
        Except.map (fun x : DME => x.floats a)
            (KC.increment_player_patch d "All Up" 1) =
          Except.ok (d.floats a + 1)) := by
  constructor
  · intro a ha
    rw [di_inc_allup, foldl_DI_bump _ _ _ h]
    exact foldl_bumpF_mem _ _ _ _ ha (by decide)
  · intro a ha
    rw [kc_inc_allup_hooked d 1 h]
    simp only [Except.map]
    fin_cases ha <;>
      exact congrArg Except.ok (foldl_bumpF_mem _ _ _ _ (by decide) (by decide))

/-- C7 witness: the theorem evaluated on a concrete hooked state at the
Turn stat address. -/
theorem C7_witness :
    dmeHookedZero.hooked = true ∧
      (DI.increment_player_patch dmeHookedZero "All Up" 1).floats
          PLAYER_1_STAT_TURN_PATCH_AMOUNT =
        dmeHookedZero.floats PLAYER_1_STAT_TURN_PATCH_AMOUNT + 1 :=
  ⟨rfl, (C7_all_up dmeHookedZero rfl).1 PLAYER_1_STAT_TURN_PATCH_AMOUNT (by decide)⟩

/-! ### C5 — special-effect items -/

/-- C5 (code divergence): `DolphinInterface.apply_effect_item` conforms
to the claim — "1 HP" issues exactly one pointer-relative float write of
1 at base `PLAYER_1_CURRENT_MACHINE_HP_ADDRESS` with offset `0xA78`, and
"Full Heal" exactly one pointer-relative float write of the observed
current max HP (here 0) — but the module-level
`KARClient.apply_effect_item` actually reached from `give_item` writes
the float 1 directly to the pointer cell itself for "1 HP" (no
indirection, no offset) and performs no write at all for "Full Heal". -/
theorem C5_effect_item_divergence :
    (DI.apply_effect_item dmeHookedZero "1 HP").2 =
        [WriteEv.ptrFloatW PLAYER_1_CURRENT_MACHINE_HP_ADDRESS 0xA78 1] ∧
      (DI.apply_effect_item dmeHookedZero "Full Heal").2 =
        [WriteEv.ptrFloatW PLAYER_1_CURRENT_MACHINE_HP_ADDRESS 0xA78 0] ∧
      Except.map (fun p => p.2) (KC.apply_effect_item dmeHookedZero "1 HP") =
        Except.ok [WriteEv.floatW PLAYER_1_CURRENT_MACHINE_HP_ADDRESS 1] ∧
      Except.map (fun p => p.2) (KC.apply_effect_item dmeHookedZero "Full Heal") =
        Except.ok [] :=
  ⟨rfl, rfl, rfl, rfl⟩

/-! ### Reduction lemmas for Except do-blocks -/

theorem bind_ok_red {α β : Type} (x : α) (f : α → Except Unit β) :
    (Except.ok x >>= f) = f x := rfl

theorem bind_error_red {α β : Type} (e : Unit) (f : α → Except Unit β) :
    ((Except.error e : Except Unit α) >>= f) = Except.error e := rfl

theorem KC_write_float_hooked (d : DME) (a : Nat) (v : ℚ) (h : d.hooked = true) :
    KC.write_float d a v =
      Except.ok { d with floats := fun x => if x = a then v else d.floats x } := by
  simp [KC.write_float, dmeWriteFloat, h]

theorem exists_ok_ite {c : Prop} [Decidable c] {x y : Except Unit DME}
    (hx : ∃ d', x = Except.ok d' ∧ d'.hooked = true)
    (hy : ∃ d', y = Except.ok d' ∧ d'.hooked = true) :
    ∃ d', (if c then x else y) = Except.ok d' ∧ d'.hooked = true := by
  by_cases hc : c
  · rw [if_pos hc]; exact hx
  · rw [if_neg hc]; exact hy

theorem KC_inc_ok (d : DME) (name : String) (delta : ℚ) (h : d.hooked = true) :
    ∃ d', KC.increment_player_patch d name delta = Except.ok d' ∧
      d'.hooked = true := by
  have e := kc_inc_allup_hooked d delta h
  have hb : ∀ a : Nat, ∃ d', KC.bumpStat d a delta = Except.ok d' ∧
      d'.hooked = true := fun a => ⟨_, KC_bumpStat_hooked d a delta h, h⟩
  unfold KC.increment_player_patch
  refine exists_ok_ite (hb _) (exists_ok_ite (hb _) (exists_ok_ite (hb _)
    (exists_ok_ite (hb _) (exists_ok_ite (hb _) (exists_ok_ite (hb _)
    (exists_ok_ite (hb _) (exists_ok_ite (hb _) (exists_ok_ite (hb _)
    (exists_ok_ite ⟨_, e, h⟩ ⟨d, rfl, h⟩)))))))))

theorem KC_effect_ok (d : DME) (name : String) (h : d.hooked = true) :
    ∃ p : DME × List WriteEv, KC.apply_effect_item d name = Except.ok p := by
  unfold KC.apply_effect_item
  split_ifs
  · refine ⟨({ d with floats := fun x =>
        if x = PLAYER_1_CURRENT_MACHINE_HP_ADDRESS then 1 else d.floats x },
      [WriteEv.floatW PLAYER_1_CURRENT_MACHINE_HP_ADDRESS 1]), ?_⟩
    rw [KC_write_float_hooked d PLAYER_1_CURRENT_MACHINE_HP_ADDRESS 1 h,
      bind_ok_red]
    rfl
  · exact ⟨(d, []), rfl⟩

/-! ### give_item evaluation lemmas -/

theorem give_item_declines (table : List (String × KARItemData)) (d : DME)
    (now t : ℚ) (item_name : String) (h : d.hooked = true)
    (hc : cityTrialPure d = false) (ht : ¬ now < t + 6) :
    give_item table d now t item_name = Except.ok (false, d, []) := by
  unfold give_item
  rw [KC_check_city_hooked d h, bind_ok_red, hc, decide_eq_false ht]
  simp
  rfl

theorem give_item_grants (table : List (String × KARItemData)) (d : DME)
    (now t : ℚ) (item_name : String) (data : KARItemData) (h : d.hooked = true)
    (hcond : (cityTrialPure d || decide (now < t + 6)) = true)
    (hdata : lookupItem table item_name = Except.ok data) :
    Except.map (fun p => p.1) (give_item table d now t item_name) =
      Except.ok true := by
  unfold give_item
  rw [KC_check_city_hooked d h, bind_ok_red, hcond]
  simp only [Bool.not_true, Bool.false_eq_true, if_false]
  rw [hdata, bind_ok_red]
  obtain ⟨d₁, e₁, h₁⟩ :
      ∃ d₁, (if data.type == "Patch" && strOccurs "Up" item_name then
          KC.increment_player_patch d item_name 1
        else pure d) = Except.ok d₁ ∧ d₁.hooked = true := by
    refine exists_ok_ite (KC_inc_ok d item_name 1 h) ⟨d, rfl, h⟩
  rw [e₁, bind_ok_red]
  obtain ⟨d₂, e₂, h₂⟩ :
      ∃ d₂, (if data.type == "Patch" && strOccurs "Down" item_name then
          KC.increment_player_patch d₁ item_name (-1)
        else pure d₁) = Except.ok d₂ ∧ d₂.hooked = true := by
    refine exists_ok_ite (KC_inc_ok d₁ item_name (-1) h₁) ⟨d₁, rfl, h₁⟩
  rw [e₂, bind_ok_red]
  split_ifs
  · obtain ⟨p, ep⟩ := KC_effect_ok d₂ item_name h₂
    rw [ep, bind_ok_red]
    rfl
  · rfl

theorem give_item_keyerror (table : List (String × KARItemData)) (d : DME)
    (now t : ℚ) (item_name : String) (h : d.hooked = true)
    (hcond : (cityTrialPure d || decide (now < t + 6)) = true)
    (herr : lookupItem table item_name = Except.error ()) :
    give_item table d now t item_name = Except.error () := by
  unfold give_item
  rw [KC_check_city_hooked d h, bind_ok_red, hcond]
  simp only [Bool.not_true, Bool.false_eq_true, if_false]
  rw [herr, bind_error_red]

/-! ### C2 — the item-application gate -/

/-- C2 (amended): on a hooked adapter, `give_item` applies a known item
on exactly the ticks where the player is in City Trial OR fewer than 6
seconds have passed since the recorded transition timestamp; only when
the player is out of City Trial AND at least 6 seconds have passed does
it decline (returning `False` with memory untouched, so the item stays
pending for the caller's retry loop).  In particular — against the
claim's wording — being in City Trial alone suffices, with no debounce
wait, and the first 6 post-transition seconds allow application even
outside City Trial. -/
theorem C2_application_gate (table : List (String × KARItemData)) (d : DME)
    (now t : ℚ) (item_name : String) (h : d.hooked = true) :
    (¬(cityTrialPure d = true ∨ now < t + 6) →
        give_item table d now t item_name = Except.ok (false, d, [])) ∧
      ((cityTrialPure d = true ∨ now < t + 6) →
        (∃ data, lookupItem table item_name = Except.ok data) →
        Except.map (fun p => p.1) (give_item table d now t item_name) =
          Except.ok true) := by
  constructor
  · intro hgate
    push_neg at hgate
    obtain ⟨hc, ht⟩ := hgate
    have hcb : cityTrialPure d = false := by
      cases hcv : cityTrialPure d
      · rfl
      · exact absurd hcv hc
    exact give_item_declines table d now t item_name h hcb (not_lt.mpr ht)
  · intro hgate hdata'
    obtain ⟨data, hdata⟩ := hdata'
    have hcond : (cityTrialPure d || decide (now < t + 6)) = true := by
      rcases hgate with hc | ht
      · simp [hc]
      · simp [ht]
    exact give_item_grants table d now t item_name data h hcond hdata

/-- C2 witness: the amended theorem on concrete states — declined when
out of City Trial 10 seconds after the transition, granted when out of
City Trial 0 seconds after it. -/
theorem C2_witness :
    give_item ITEM_TABLE_BASE dmeHookedZero 10 0 "Boost Up" =
        Except.ok (false, dmeHookedZero, []) ∧
      Except.map (fun p => p.1)
          (give_item ITEM_TABLE_BASE dmeHookedZero 0 0 "Boost Up") =
        Except.ok true :=
  ⟨(C2_application_gate ITEM_TABLE_BASE dmeHookedZero 10 0 "Boost Up" rfl).1
      (by
        rintro (hc | ht)
        · revert hc
          decide
        · norm_num at ht),
   (C2_application_gate ITEM_TABLE_BASE dmeHookedZero 0 0 "Boost Up" rfl).2
      (Or.inr (by norm_num)) ⟨_, rfl⟩⟩

/-- C2 counterexample: with the player NOT in City Trial but 0 seconds
past the recorded transition (debounce certainly not elapsed),
`give_item` still applies the queued "Boost Up": it returns `True`,
although the claim demands that no item be applied on a tick where
either condition is false. -/
theorem C2_counterexample :
    cityTrialPure dmeHookedZero = false ∧
      Except.map (fun p => p.1)
          (give_item ITEM_TABLE_BASE dmeHookedZero 0 0 "Boost Up") =
        Except.ok true := by
  constructor
  · rfl
  · refine give_item_grants ITEM_TABLE_BASE dmeHookedZero 0 0 "Boost Up"
      ⟨"Patch", "useful", some 30, 10, some 0x03⟩ rfl ?_ rfl
    have h6 : ((0 : ℚ) < 0 + 6) := by norm_num
    simp [h6]

/-! ### C4 — unknown item identifiers -/

/-- C4 (amended): an item name with no recognizable patch type is a
logged no-op in `DolphinInterface.increment_player_patch` (no memory
write, all patch stats unchanged); but an item name absent from
`ITEM_TABLE` makes `KARContext.give_item` raise `KeyError` to its caller
(whenever the application gate lets it reach the table subscript),
rather than being ignored. -/
theorem C4_unknown_item :
    (∀ (d : DME) (name : String) (delta : ℚ),
        get_patch_type_from_item_name name = none →
        DI.increment_player_patch d name delta = d) ∧
      (∀ (table : List (String × KARItemData)) (d : DME) (now t : ℚ)
          (name : String), d.hooked = true →
        (cityTrialPure d = true ∨ now < t + 6) →
        lookupItem table name = Except.error () →
        give_item table d now t name = Except.error ()) := by
  constructor
  · intro d name delta hname
    unfold DI.increment_player_patch
    rw [hname]
  · intro table d now t name h hgate herr
    have hcond : (cityTrialPure d || decide (now < t + 6)) = true := by
      rcases hgate with hc | ht
      · simp [hc]
      · simp [ht]
    exact give_item_keyerror table d now t name h hcond herr

/-- C4 witness: the amended theorem at a concrete unknown item name. -/
theorem C4_witness :
    DI.increment_player_patch dmeHookedZero "Mystery Trophy" 1 = dmeHookedZero ∧
      give_item ITEM_TABLE_BASE dmeHookedZero 0 0 "Mystery Trophy" =
        Except.error () :=
  ⟨C4_unknown_item.1 dmeHookedZero "Mystery Trophy" 1 rfl,
   C4_unknown_item.2 ITEM_TABLE_BASE dmeHookedZero 0 0 "Mystery Trophy" rfl
      (Or.inr (by norm_num)) rfl⟩

/-- C4 counterexample: the unknown identifier "Mystery Trophy", handled
while the application gate is open, raises `KeyError` out of
`give_item` instead of being a logged no-op. -/
theorem C4_counterexample :
    give_item ITEM_TABLE_BASE dmeHookedZero 0 0 "Mystery Trophy" =
      Except.error () := by
  refine give_item_keyerror ITEM_TABLE_BASE dmeHookedZero 0 0 "Mystery Trophy"
    rfl ?_ rfl
  have h6 : ((0 : ℚ) < 0 + 6) := by norm_num
  simp [h6]

/-! ### C8 — monotone accumulation of checked locations -/

theorem checkLocationStep_subset (d : DME) (acc acc' : Finset Nat)
    (loc : KARLocationData)
    (hstep : checkLocationStep d acc loc = Except.ok acc') : acc ⊆ acc' := by
  unfold checkLocationStep at hstep
  cases he : locChecked d loc with
  | error e =>
    rw [he, bind_error_red] at hstep
    cases hstep
  | ok b =>
    rw [he, bind_ok_red] at hstep
    cases b with
    | false =>
      simp only [Bool.false_eq_true, if_false] at hstep
      cases hstep
      exact Finset.Subset.refl _
    | true =>
      simp only [if_pos] at hstep
      cases hcode : loc.code with
      | none =>
        rw [hcode] at hstep
        cases hstep
        exact Finset.Subset.refl _
      | some code =>
        rw [hcode] at hstep
        cases hstep
        exact Finset.subset_insert _ _

theorem sendCheckPass_subset (d : DME) (table : List KARLocationData) :
    ∀ acc acc' : Finset Nat, sendCheckPass d table acc = Except.ok acc' →
      acc ⊆ acc' := by
  induction table with
  | nil =>
    intro acc acc' hp
    simp only [sendCheckPass, List.foldlM_nil] at hp
    cases hp
    exact Finset.Subset.refl _
  | cons loc L ih =>
    intro acc acc' hp
    simp only [sendCheckPass, List.foldlM_cons] at hp
    cases hs : checkLocationStep d acc loc with
    | error e =>
      rw [hs, bind_error_red] at hp
      cases hp
    | ok acc₁ =>
      rw [hs, bind_ok_red] at hp
      exact (checkLocationStep_subset d acc acc₁ loc hs).trans (ih acc₁ acc' hp)

/-- C8: the accumulated set of satisfied checklist-location codes is
monotone across connected ticks — over any sequence of per-tick memory
states, once a code is in the accumulated set, every later
`send_check_locations` pass keeps it there (a pass can only leave the
set unchanged or insert codes), even when the location's byte reads a
locked value again. -/
theorem C8_locations_monotonic (table : List KARLocationData) (ds : List DME)
    (acc acc' : Finset Nat) (c : Nat)
    (hrun : sendCheckRun table acc ds = Except.ok acc') (hc : c ∈ acc) :
    c ∈ acc' := by
  induction ds generalizing acc with
  | nil =>
    simp only [sendCheckRun] at hrun
    cases hrun
    exact hc
  | cons d ds ih =>
    simp only [sendCheckRun] at hrun
    cases hp : sendCheckPass d table acc with
    | error e =>
      rw [hp, bind_error_red] at hrun
      cases hrun
    | ok acc₁ =>
      rw [hp, bind_ok_red] at hrun
      exact ih acc₁ hrun (sendCheckPass_subset d table acc acc₁ hp hc)

/-- C8 witness: a pass on a state whose checklist byte reads `0x20`
(satisfied) adds code 42; a later pass on a state whose byte reads
`0x00` (transiently re-locked) keeps 42 in the accumulated set. -/
theorem C8_witness :
    sendCheckPass dmeBoxSatisfied locTableOne ∅ = Except.ok (insert 42 ∅) ∧
      sendCheckRun locTableOne (insert 42 ∅) [dmeHookedZero] =
        Except.ok (insert 42 ∅) ∧
      42 ∈ (insert 42 ∅ : Finset Nat) :=
  ⟨rfl, rfl,
   C8_locations_monotonic locTableOne [dmeHookedZero] (insert 42 ∅)
     (insert 42 ∅) 42 rfl (by decide)⟩

/-! ### C10 — the DeathLink guard -/

/-- C10: an inbound DeathLink event writes nothing to game memory unless
the session slot is set, the adapter is hooked, the Dolphin status
equals the connected status, and the player is currently in City Trial;
under any other condition the handler returns the memory state unchanged
with no write event. -/
theorem C10_deathlink_guard (slot : Option Nat) (dolphin_status : String)
    (d : DME)
    (h : ¬(slot.isSome = true ∧ d.hooked = true ∧
      dolphin_status = CONNECTION_CONNECTED_STATUS ∧ cityTrialPure d = true)) :
    on_deathlink slot dolphin_status d = (d, []) := by
  unfold on_deathlink give_death
  rw [if_neg]
  intro hc
  simp only [Bool.and_eq_true, beq_iff_eq] at hc
  exact h ⟨hc.1.1.1, hc.1.1.2, hc.1.2, hc.2⟩

/-- C10 witness: with no slot set (even though hooked, connected and in
no particular mode), the handler leaves memory unchanged and issues no
write. -/
theorem C10_witness :
    on_deathlink none CONNECTION_CONNECTED_STATUS dmeHookedZero =
      (dmeHookedZero, []) :=
  C10_deathlink_guard none CONNECTION_CONNECTED_STATUS dmeHookedZero
    (by
      rintro ⟨hs, -⟩
      cases hs)

end KAR
